import Mathlib

/-!
Shallow embedding of `app.py` (a Telegram fitness-profile bot).

Modelling conventions:
* Python `float` / SQL `numeric` values are modelled as `ℚ`; every numeric
  literal appearing in the source (10, 6.25, 1.2, 18.5, ...) is exactly
  representable, so no rounding behaviour is lost for the properties below.
* The per-user table `user_profile` is a function `Int → Option Profile`.
* `send(chat_id, text)` is modelled by collecting the sent texts in a list:
  each request handler returns the post-state of the store together with the
  list of messages sent while handling the request.
* Python exception control flow (`try`/`except`) is modelled by parser
  functions returning an explicit error constructor.
* Number-to-text rendering inside reply strings (`f"{b:.1f}"` etc.) is
  abstracted by `toString` on the exact rational value; no claim depends on
  the printed digits of a number.
* `clean_float` models the decimal fragment of Python `float()` (optional
  sign, digits, optional fraction part); exponents, `inf` and `nan` are not
  modelled, matching the spec's "decimal" field type.
-/

/-- Python `str.strip` whitespace set (space, tab, newline, CR, VT, FF). -/
def pyIsSpace (c : Char) : Bool :=
  c = Char.ofNat 32 || c = Char.ofNat 9 || c = Char.ofNat 10 ||
  c = Char.ofNat 13 || c = Char.ofNat 11 || c = Char.ofNat 12

/-- Strip leading and trailing whitespace from a character list. -/
def pyStripList (cs : List Char) : List Char :=
  ((cs.dropWhile pyIsSpace).reverse.dropWhile pyIsSpace).reverse

/-- Python `str.strip()`. -/
def pyStrip (s : String) : String :=
  String.mk (pyStripList s.toList)

/-- Python `text.startswith("/")` from `app.py` line 119. -/
def startsWithSlash (s : String) : Bool :=
  match s.toList with
  | c :: _ => c = Char.ofNat 47
  | [] => false

/-- Python `str.lower()` (ASCII case mapping, which covers all source inputs). -/
def pyLower (s : String) : String :=
  String.mk (s.toList.map Char.toLower)

/-- Python `str.upper()` (ASCII case mapping). -/
def pyUpper (s : String) : String :=
  String.mk (s.toList.map Char.toUpper)

/-- Split a character list at the first occurrence of `sep`:
`none` when `sep` does not occur, otherwise the parts before and after it. -/
def splitOnceList (sep : Char) : List Char → Option (List Char × List Char)
  | [] => none
  | c :: cs =>

    if c = sep then some ([], cs)
    else (splitOnceList sep cs).map (fun p => (c :: p.1, p.2))

/-- Python `s.split(sep, 1)`: the head token and, when `sep` occurs, the
remainder after the first separator. -/
def pySplitFirst (sep : Char) (s : String) : String × Option String :=
  match splitOnceList sep s.toList with
  | none => (s, none)
  | some (a, b) => (String.mk a, some (String.mk b))

/-- Auxiliary accumulator-based splitter for `pySplitAll`. -/
def splitAllList (sep : Char) : List Char → List Char → List (List Char)
  | [], acc => [acc.reverse]
  | c :: cs, acc =>
    if c = sep then acc.reverse :: splitAllList sep cs []
    else splitAllList sep cs (c :: acc)

/-- Python `s.split(sep)` (all occurrences; `"".split(sep) == [""]`). -/
def pySplitAll (sep : Char) (s : String) : List String :=
  (splitAllList sep s.toList []).map String.mk

/-- Numeric value of a decimal digit character. -/
def digitVal (c : Char) : Nat := c.toNat - 48

/-- Value of a digit string read in base 10 (0 for the empty list). -/
def natOfDigits (cs : List Char) : Nat :=
  cs.foldl (fun a c => a * 10 + digitVal c) 0

/-- Python helper `clean_int(x) = int(str(x).strip())` from `app.py` lines
36-37, restricted to the decimal-integer grammar (optional sign, digits). -/
def clean_int (s : String) : Option Int :=
  let t := pyStripList s.toList
  match t with
  | c :: ds =>
    if c = Char.ofNat 45 then
      if ds ≠ [] ∧ ds.all Char.isDigit then some (-(natOfDigits ds : Int)) else none
    else if c = Char.ofNat 43 then
      if ds ≠ [] ∧ ds.all Char.isDigit then some ((natOfDigits ds : Int)) else none
    else
      if t.all Char.isDigit then some ((natOfDigits t : Int)) else none
  | [] => none

/-- Python helper `clean_float(x) = float(str(x).strip())` from `app.py`
lines 39-40, restricted to the decimal grammar
(optional sign, integer digits, optional fraction digits). -/
def clean_float (s : String) : Option ℚ :=
  let t := pyStripList s.toList
  let su : ℚ × List Char :=
    match t with
    | c :: r =>
      if c = Char.ofNat 45 then (-1, r)
      else if c = Char.ofNat 43 then (1, r)
      else (1, t)
    | [] => (1, [])
  let sign := su.1
  let u := su.2
  match splitOnceList (Char.ofNat 46) u with
  | none =>
    if u ≠ [] ∧ u.all Char.isDigit then some (sign * (natOfDigits u : ℚ)) else none
  | some (ip, fp) =>
    if (ip ≠ [] ∨ fp ≠ []) ∧ ip.all Char.isDigit ∧ fp.all Char.isDigit then
      some (sign * ((natOfDigits ip : ℚ) + (natOfDigits fp : ℚ) / (10 : ℚ) ^ fp.length))
    else none

/-- Activity-factor lookup table `ACT_MAP` from `app.py` line 22. -/
def ACT_MAP (a : Int) : Option ℚ :=
  if a = 1 then some 1.2
  else if a = 2 then some 1.375
  else if a = 3 then some 1.55
  else if a = 4 then some 1.725
  else if a = 5 then some 1.9
  else none

/-- BMI computation `bmi_value` from `app.py` lines 42-44. -/
def bmi_value (height_cm : ℚ) (weight_kg : ℚ) : ℚ :=
  let h_m := height_cm / 100
  weight_kg / (h_m * h_m)

/-- BMI category `bmi_label` from `app.py` lines 46-50. -/
def bmi_label (b : ℚ) : String :=
  if b < 18.5 then "Underweight"
  else if b < 25 then "Normal"
  else if b < 30 then "Overweight"
  else "Obese"

/-- Mifflin-St Jeor basal metabolic rate `mifflin_bmr` from `app.py`
lines 52-57. -/
def mifflin_bmr (sex : String) (age : Int) (height_cm : Int) (weight_kg : ℚ) : ℚ :=
  if sex = "M" then
    10 * weight_kg + 6.25 * (height_cm : ℚ) - 5 * (age : ℚ) + 5
  else
    10 * weight_kg + 6.25 * (height_cm : ℚ) - 5 * (age : ℚ) - 161

/-- Total daily energy expenditure `tdee` from `app.py` lines 59-62
(`ACT_MAP.get(activity, 1.2)` is `Option.getD` of the table lookup). -/
def tdee (sex : String) (age : Int) (height_cm : Int) (weight_kg : ℚ) (activity : Int) : ℚ :=
  let bmr := mifflin_bmr sex age height_cm weight_kg
  let factor := Option.getD (ACT_MAP activity) 1.2
  bmr * factor

/-- Suggested deficit expression `cut = max(t - 500, t - 300)` from `app.py`
line 210 (named `suggested_deficit_target` in the spec, section 4.1). -/
def suggested_deficit_target (t : ℚ) : ℚ :=
  max (t - 500) (t - 300)

/-- Row of the `user_profile` table (schema of `app.py` lines 71-86 and the
data model of the spec, section 3). `updated_at` is an abstract timestamp. -/
structure Profile where
  user_id : Int
  chat_id : Int
  name : Option String
  sex : Option String
  age : Option Int
  height_cm : Option Int
  weight_kg : Option ℚ
  activity : Option Int
  updated_at : Nat
deriving DecidableEq

/-- The `user_profile` table keyed by `user_id`. -/
abbrev DB := Int → Option Profile

/-- The empty table. -/
def emptyDB : DB := fun _ => none

/-- Merge-patch upsert `upsert_profile` from `app.py` lines 68-86:
when a row exists, each field is `COALESCE(new, old)` (`Option.or`) and
`updated_at` is refreshed; otherwise a fresh row is inserted with the
supplied fields over all-null defaults. -/
def upsert_profile (db : DB) (user_id chat_id : Int)
    (name : Option String) (sex : Option String) (age : Option Int)
    (height_cm : Option Int) (weight_kg : Option ℚ) (activity : Option Int)
    (now : Nat) : DB :=
  match db user_id with
  | some row =>
    fun u =>
      if u = user_id then
        some { row with
          name := Option.or name row.name
          sex := Option.or sex row.sex
          age := Option.or age row.age
          height_cm := Option.or height_cm row.height_cm
          weight_kg := Option.or weight_kg row.weight_kg
          activity := Option.or activity row.activity
          updated_at := now }
      else db u
  | none =>
    fun u =>
      if u = user_id then
        some (Profile.mk user_id chat_id name sex age height_cm weight_kg activity now)
      else db u

/-- Row lookup `get_profile` from `app.py` lines 88-89. -/
def get_profile (db : DB) (user_id : Int) : Option Profile :=
  db user_id

/-- Help text `HELP` from `app.py` lines 24-34. -/
def HELP : String :=
  "Hi! I can store your fitness profile and do quick checks.\n\n" ++
  "Commands:\n" ++
  "/setprofile Name, Sex(M/F), Age, Height_cm, Weight_kg, Activity(1-5)\n" ++
  "  e.g.  /setprofile Ace, M, 22, 175, 76, 3\n\n" ++
  "/profile  → show your saved data\n" ++
  "/bmi      → your BMI + category\n" ++
  "/cutcal   → daily calories to lose weight (modest cut)\n" ++
  "/edit field value  → update one item (fields: name, sex, age, height, weight, activity)\n" ++
  "  e.g.  /edit weight 74.5\n"

/-- Reply of `app.py` line 120 (message without a leading slash). -/
def msgNoCommand : String := "Use /start for help."

/-- Reply of `app.py` line 217 (unknown command). -/
def msgUnknownCmd : String := "Unknown command. Use /start for help."

/-- Reply of `app.py` line 133 (/profile with no stored row). -/
def msgNoProfile : String :=
  "No profile yet. Set it with:\n/setprofile Name, Sex(M/F), Age, Height_cm, Weight_kg, Activity(1-5)"

/-- Reply of `app.py` line 143 (/setprofile without arguments). -/
def msgSetFormat : String :=
  "Format:\n/setprofile Name, Sex(M/F), Age, Height_cm, Weight_kg, Activity(1-5)"

/-- Reply of `app.py` line 148 (/setprofile with a field count other than 6). -/
def msgSetCount : String :=
  "Please send exactly 6 items, e.g.\n/setprofile Ace, M, 22, 175, 76, 3"

/-- Reply of `app.py` line 162 (/setprofile parse or validation failure). -/
def msgSetBad : String :=
  "Could not read that. Example:\n/setprofile Ace, M, 22, 175, 76, 3"

/-- Reply of `app.py` line 160 (successful /setprofile). -/
def msgSaved : String := "Saved ✅  (Use /profile to check)"

/-- Reply of `app.py` line 166 (/edit without arguments). -/
def msgEditFormat : String :=
  "Format:\n/edit field value\nFields: name, sex(M/F), age, height, weight, activity(1-5)"

/-- Reply of `app.py` line 192 (successful /edit). -/
def msgUpdated : String := "Updated ✅"

/-- Reply of `app.py` line 194 (/edit parse or validation failure). -/
def msgEditBad : String := "Could not update. Example:\n/edit weight 74.5"

/-- Reply of `app.py` line 199 (/bmi precondition failure). -/
def msgBmiNeed : String :=
  "Please set height & weight first:\n/setprofile Name, Sex(M/F), Age, Height_cm, Weight_kg, Activity(1-5)"

/-- Reply of `app.py` line 207 (/cutcal precondition failure). -/
def msgCutNeed : String := "Please complete your profile first with /setprofile."

/-- Rendering of an optional string field in /profile output
(Python prints `None` for SQL NULL). -/
def fmtStr (o : Option String) : String :=
  match o with
  | some s => s
  | none => "None"

/-- Rendering of an optional integer field in /profile output. -/
def fmtInt (o : Option Int) : String :=
  match o with
  | some i => toString i
  | none => "None"

/-- Rendering of an optional numeric field in /profile output
(digit rendering abstracted by `toString` on the exact value). -/
def fmtRat (o : Option ℚ) : String :=
  match o with
  | some q => toString q
  | none => "None"

/-- Profile rendering `msgp` from `app.py` lines 135-138. -/
def renderProfile (row : Profile) : String :=
  "Your profile:\nName: " ++ fmtStr row.name ++ "\nSex: " ++ fmtStr row.sex ++
  "\nAge: " ++ fmtInt row.age ++ "\nHeight: " ++ fmtInt row.height_cm ++
  " cm\nWeight: " ++ fmtRat row.weight_kg ++ " kg\nActivity (1-5): " ++ fmtInt row.activity

/-- BMI reply of `app.py` line 202 (the `:.1f` digit rendering abstracted
by `toString` on the exact value). -/
def bmiMsg (b : ℚ) : String :=
  "BMI: " ++ toString b ++ " (" ++ bmi_label b ++ ")"

/-- Cutcal reply `msgc` of `app.py` lines 211-213 (the `:.0f` digit
rendering abstracted by `toString` on the exact values). -/
def cutMsg (t cut : ℚ) : String :=
  "Estimated maintenance (TDEE): " ++ toString t ++ " kcal/day\n" ++
  "Suggested to lose weight: ~" ++ toString cut ++ " kcal/day (300–500 kcal deficit).\n" ++
  "(Why: steady deficits are safer and easier to stick to.)"

/-- Outcome of the /setprofile argument parsing and validation of `app.py`
lines 146-158: wrong field count, a parse/validation exception, or the six
validated values. -/
inductive SetResult where
  | countErr : SetResult
  | badErr : SetResult
  | okRes : String → String → Int → Int → ℚ → Int → SetResult
deriving DecidableEq

/-- Parsing and validation of the /setprofile remainder, `app.py` lines
146-158: split on commas, strip each part, require exactly 6 parts, coerce
types, and check `sex` and `activity` membership. -/
def setprofileParse (restStr : String) : SetResult :=
  let parts := (pySplitAll (Char.ofNat 44) restStr).map pyStrip
  match parts with
  | [p0, p1, p2, p3, p4, p5] =>
    let sex := pyUpper p1
    match clean_int p2, clean_int p3, clean_float p4, clean_int p5 with
    | some age, some height, some weight, some act =>
      if (sex = "M" ∨ sex = "F") ∧ (act = 1 ∨ act = 2 ∨ act = 3 ∨ act = 4 ∨ act = 5) then
        SetResult.okRes p0 sex age height weight act
      else SetResult.badErr
    | _, _, _, _ => SetResult.badErr
  | _ => SetResult.countErr

/-- The /setprofile branch of `app.py` lines 144-162, given a present
remainder string. -/
def setprofileBody (db : DB) (user_id chat_id : Int) (restStr : String) (now : Nat) :
    DB × List String :=
  match setprofileParse restStr with
  | SetResult.countErr => (db, [msgSetCount])
  | SetResult.badErr => (db, [msgSetBad])
  | SetResult.okRes name sex age height weight act =>
    (upsert_profile db user_id chat_id (some name) (some sex) (some age)
      (some height) (some weight) (some act) now, [msgSaved])

/-- Outcome of the /edit argument parsing of `app.py` lines 168-189:
a caught exception (`err`), the unrecognized-field silent return
(`silent`), or a single-field update payload for `upsert_profile`. -/
inductive EditResult where
  | err : EditResult
  | silent : EditResult
  | ok : Option String → Option String → Option Int → Option Int →
      Option ℚ → Option Int → EditResult
deriving DecidableEq

/-- Parsing and validation of the /edit remainder, `app.py` lines 168-189:
split on the first space (an unsplittable remainder raises, caught as
`err`), case-fold the field token, then build the one-field `updates`
payload with per-field validation. -/
def editParse (restStr : String) : EditResult :=
  match pySplitFirst (Char.ofNat 32) restStr with
  | (_, none) => EditResult.err
  | (fieldRaw, some valueRaw) =>
    let field := pyStrip (pyLower fieldRaw)
    let value := pyStrip valueRaw
    if field = "name" then
      EditResult.ok (some value) none none none none none
    else if field = "sex" then
      if pyUpper value = "M" ∨ pyUpper value = "F" then
        EditResult.ok none (some (pyUpper value)) none none none none
      else EditResult.err
    else if field = "age" then
      match clean_int value with
      | some v => EditResult.ok none none (some v) none none none
      | none => EditResult.err
    else if field = "height" then
      match clean_int value with
      | some v => EditResult.ok none none none (some v) none none
      | none => EditResult.err
    else if field = "weight" then
      match clean_float value with
      | some v => EditResult.ok none none none none (some v) none
      | none => EditResult.err
    else if field = "activity" then
      match clean_int value with
      | some v =>
        if v = 1 ∨ v = 2 ∨ v = 3 ∨ v = 4 ∨ v = 5 then
          EditResult.ok none none none none none (some v)
        else EditResult.err
      | none => EditResult.err
    else EditResult.silent

/-- The field token named by an /edit remainder (the claims of the spec
refer to updates by this token); it is the case-folded first token when the
remainder splits, and the empty string otherwise. -/
def editFieldToken (restStr : String) : String :=
  match pySplitFirst (Char.ofNat 32) restStr with
  | (fieldRaw, some _) => pyStrip (pyLower fieldRaw)
  | (_, none) => ""

/-- The /edit branch of `app.py` lines 167-194, given a present remainder
string: a parse/validation exception replies the example, the
unrecognized-field branch returns silently (no send, no write), and a valid
payload is upserted then confirmed. -/
def editBody (db : DB) (user_id chat_id : Int) (restStr : String) (now : Nat) :
    DB × List String :=
  match editParse restStr with
  | EditResult.err => (db, [msgEditBad])
  | EditResult.silent => (db, [])
  | EditResult.ok name sex age height weight act =>
    (upsert_profile db user_id chat_id name sex age height weight act now, [msgUpdated])

/-- The /profile branch of `app.py` lines 130-139. -/
def profileBody (db : DB) (user_id chat_id : Int) : DB × List String :=
  match get_profile db user_id with
  | none => (db, [msgNoProfile])
  | some row => (db, [renderProfile row])

/-- The /bmi branch of `app.py` lines 196-202: Python truthiness of
`row["height_cm"]` / `row["weight_kg"]` is falsy exactly on NULL and 0. -/
def bmiBody (db : DB) (user_id chat_id : Int) : DB × List String :=
  match get_profile db user_id with
  | none => (db, [msgBmiNeed])
  | some row =>
    match row.height_cm, row.weight_kg with
    | some h, some w =>
      if h = 0 ∨ w = 0 then (db, [msgBmiNeed])
      else (db, [bmiMsg (bmi_value (h : ℚ) w)])
    | _, _ => (db, [msgBmiNeed])

/-- The /cutcal branch of `app.py` lines 204-214: `all([...])` is Python
truthiness of the five fields (falsy on NULL, 0 and the empty string). -/
def cutcalBody (db : DB) (user_id chat_id : Int) : DB × List String :=
  match get_profile db user_id with
  | none => (db, [msgCutNeed])
  | some row =>
    match row.sex, row.age, row.height_cm, row.weight_kg, row.activity with
    | some s, some a, some h, some w, some act =>
      if s = "" ∨ a = 0 ∨ h = 0 ∨ w = 0 ∨ act = 0 then (db, [msgCutNeed])
      else
        let t := tdee s a h w act
        (db, [cutMsg t (suggested_deficit_target t)])
    | _, _, _, _, _ => (db, [msgCutNeed])

/-- The webhook handler `telegram` of `app.py` lines 100-219, restricted to
its core: strip the text, require the slash prefix, split off the
case-folded command token, and dispatch. Returns the post-state of the
table and the list of messages sent. -/
def telegram (db : DB) (user_id chat_id : Int) (rawText : String) (now : Nat) :
    DB × List String :=
  let text := pyStrip rawText
  if ¬ startsWithSlash text then (db, [msgNoCommand])
  else
    let cr := pySplitFirst (Char.ofNat 32) text
    let cmd := pyLower cr.1
    if cmd = "/start" ∨ cmd = "/help" then (db, [HELP])
    else if cmd = "/profile" then profileBody db user_id chat_id
    else if cmd = "/setprofile" then
      match cr.2 with
      | none => (db, [msgSetFormat])
      | some r => setprofileBody db user_id chat_id r now
    else if cmd = "/edit" then
      match cr.2 with
      | none => (db, [msgEditFormat])
      | some r => editBody db user_id chat_id r now
    else if cmd = "/bmi" then bmiBody db user_id chat_id
    else if cmd = "/cutcal" then cutcalBody db user_id chat_id
    else (db, [msgUnknownCmd])

/-- States of the profile table reachable from the empty table through
webhook requests. -/
inductive Reachable : DB → Prop where
  | empty : Reachable emptyDB
  | step (db : DB) (user_id chat_id : Int) (rawText : String) (now : Nat) :
      Reachable db → Reachable (telegram db user_id chat_id rawText now).1

/-- Validity of the profile data constraints of the spec, section 3, that
the code actually enforces: `sex` is M or F whenever present and `activity`
is in 1..5 whenever present, for every stored row. -/
def StoreInv (db : DB) : Prop :=
  ∀ user_id p, db user_id = some p →
    (∀ s, p.sex = some s → s = "M" ∨ s = "F") ∧
    (∀ a, p.activity = some a → 1 ≤ a ∧ a ≤ 5)

/-- Sample row used to witness the merge-patch property. -/
def sampleRow : Profile :=
  Profile.mk 1 7 (some ("Ace")) (some ("M")) (some 22) (some 175) none (some 3) 0

/-- Sample table holding `sampleRow` under user 1. -/
def sampleDB : DB := fun u => if u = 1 then some sampleRow else none

/-- Sample row with a zero stored height, used to witness the /bmi guard. -/
def rowZeroHeight : Profile :=
  Profile.mk 1 5 (some ("Bo")) (some ("M")) (some 30) (some 0) none (some 2) 0

/-- Sample table holding `rowZeroHeight` under user 1. -/
def dbZeroHeight : DB := fun u => if u = 1 then some rowZeroHeight else none

/-! Helper lemmas about the store and the parsers, shared by several
claim theorems. -/

/-- An upsert leaves every other user's row untouched. -/
theorem upsert_profile_other (db : DB) (user_id chat_id : Int)
    (name sex : Option String) (age height_cm : Option Int) (weight_kg : Option ℚ)
    (activity : Option Int) (now : Nat) (u : Int) (hu : u ≠ user_id) :
    upsert_profile db user_id chat_id name sex age height_cm weight_kg activity now u = db u := by
  unfold upsert_profile
  cases db user_id <;> simp [hu]

/-- On an existing row, an upsert produces the COALESCE-merged row. -/
theorem upsert_profile_self_update (db : DB) (user_id chat_id : Int)
    (name sex : Option String) (age height_cm : Option Int) (weight_kg : Option ℚ)
    (activity : Option Int) (now : Nat) (row : Profile) (h : db user_id = some row) :
    upsert_profile db user_id chat_id name sex age height_cm weight_kg activity now user_id =
      some { row with
        name := Option.or name row.name
        sex := Option.or sex row.sex
        age := Option.or age row.age
        height_cm := Option.or height_cm row.height_cm
        weight_kg := Option.or weight_kg row.weight_kg
        activity := Option.or activity row.activity
        updated_at := now } := by
  unfold upsert_profile
  rw [h]
  simp

/-- On an absent row, an upsert inserts the payload over all-null defaults. -/
theorem upsert_profile_self_insert (db : DB) (user_id chat_id : Int)
    (name sex : Option String) (age height_cm : Option Int) (weight_kg : Option ℚ)
    (activity : Option Int) (now : Nat) (h : db user_id = none) :
    upsert_profile db user_id chat_id name sex age height_cm weight_kg activity now user_id =
      some (Profile.mk user_id chat_id name sex age height_cm weight_kg activity now) := by
  unfold upsert_profile
  rw [h]
  simp

/-- CLAIM C3: the suggested cut is `max(tdee-500, tdee-300)`, which always
equals `tdee - 300` and never `tdee - 500` (the max-selection degeneracy
flagged by the spec is real and must be preserved). -/
theorem claim_C3_deficit_always_300 (t : ℚ) :
    suggested_deficit_target t = max (t - 500) (t - 300) ∧
    suggested_deficit_target t = t - 300 ∧
    suggested_deficit_target t ≠ t - 500 := by
  have h : suggested_deficit_target t = t - 300 := by
    unfold suggested_deficit_target
    exact max_eq_right (by linarith)
  refine ⟨rfl, h, ?_⟩
  rw [h]
  intro hc
  linarith

/-- Witness for C3 at a concrete TDEE. -/
theorem claim_C3_witness :
    suggested_deficit_target 2000 = 1700 ∧ suggested_deficit_target 2000 ≠ 1500 := by
  obtain ⟨-, h2, h3⟩ := claim_C3_deficit_always_300 2000
  refine ⟨by rw [h2]; norm_num, fun hc => h3 ?_⟩
  rw [hc]
  norm_num

/-- CLAIM C4: `tdee` is the Mifflin-St Jeor BMR (with +5 for M and -161
otherwise) times the activity factor from the table
`{1:1.2, 2:1.375, 3:1.55, 4:1.725, 5:1.9}`, defaulting to 1.2 for any
activity value absent from the table; and the two particular BMR values. -/
theorem claim_C4_tdee_formula :
    (∀ (sex : String) (age height_cm : Int) (weight_kg : ℚ) (activity : Int),
      tdee sex age height_cm weight_kg activity =
        (if sex = "M" then 10 * weight_kg + 6.25 * (height_cm : ℚ) - 5 * (age : ℚ) + 5
         else 10 * weight_kg + 6.25 * (height_cm : ℚ) - 5 * (age : ℚ) - 161) *
        (if activity = 1 then 1.2 else if activity = 2 then 1.375
         else if activity = 3 then 1.55 else if activity = 4 then 1.725
         else if activity = 5 then 1.9 else 1.2)) ∧
    mifflin_bmr ("M") 22 175 76 = 1748.75 ∧
    mifflin_bmr ("F") 22 175 76 = 1582.75 := by
  refine ⟨?_, ?_, ?_⟩
  · intro sex age height_cm weight_kg activity
    have hfac : ∀ a : Int, Option.getD (ACT_MAP a) 1.2 =
        (if a = 1 then (1.2 : ℚ) else if a = 2 then 1.375 else if a = 3 then 1.55
         else if a = 4 then 1.725 else if a = 5 then 1.9 else 1.2) := by
      intro a
      unfold ACT_MAP
      split_ifs <;> rfl
    unfold tdee mifflin_bmr
    rw [hfac]
  · rw [mifflin_bmr, if_pos rfl]
    norm_num
  · rw [mifflin_bmr, if_neg (by decide)]
    norm_num

/-- Witness for C4 at a concrete profile (activity 3 multiplies by 1.55). -/
theorem claim_C4_witness : tdee ("M") 22 175 76 3 = 1748.75 * 1.55 := by
  rw [claim_C4_tdee_formula.1 ("M") 22 175 76 3, if_pos rfl,
    if_neg (by decide), if_neg (by decide), if_pos rfl]
  norm_num

/-- CLAIM C5: the BMI category thresholds are the half-open intervals with
inclusive lower bounds, together with the six boundary evaluations. -/
theorem claim_C5_bmi_category (b : ℚ) :
    (bmi_label b = "Underweight" ↔ b < 18.5) ∧
    (bmi_label b = "Normal" ↔ 18.5 ≤ b ∧ b < 25) ∧
    (bmi_label b = "Overweight" ↔ 25 ≤ b ∧ b < 30) ∧
    (bmi_label b = "Obese" ↔ 30 ≤ b) ∧
    bmi_label 18.4 = "Underweight" ∧ bmi_label 18.5 = "Normal" ∧
    bmi_label 24.9 = "Normal" ∧ bmi_label 25 = "Overweight" ∧
    bmi_label 29.9 = "Overweight" ∧ bmi_label 30 = "Obese" := by
  refine ⟨?_, ?_, ?_, ?_, by norm_num [bmi_label], by norm_num [bmi_label],
    by norm_num [bmi_label], by norm_num [bmi_label], by norm_num [bmi_label],
    by norm_num [bmi_label]⟩ <;>
    unfold bmi_label <;> split_ifs with h1 h2 h3
  · exact iff_of_true rfl h1
  · exact iff_of_false (by decide) (by linarith)
  · exact iff_of_false (by decide) (by linarith)
  · exact iff_of_false (by decide) (by linarith)
  · exact iff_of_false (by decide) (by rintro ⟨hle, -⟩; linarith)
  · exact iff_of_true rfl ⟨by linarith [not_lt.mp h1], h2⟩
  · exact iff_of_false (by decide) (by rintro ⟨-, hlt⟩; exact absurd hlt h2)
  · exact iff_of_false (by decide) (by rintro ⟨-, hlt⟩; exact absurd hlt h2)
  · exact iff_of_false (by decide) (by rintro ⟨hge, -⟩; linarith)
  · exact iff_of_false (by decide) (by rintro ⟨hge, -⟩; linarith)
  · exact iff_of_true rfl ⟨by linarith [not_lt.mp h2], h3⟩
  · exact iff_of_false (by decide) (by rintro ⟨-, hlt⟩; exact absurd hlt h3)
  · exact iff_of_false (by decide) (by intro hle; linarith)
  · exact iff_of_false (by decide) (by intro hle; linarith)
  · exact iff_of_false (by decide) (by intro hle; linarith)
  · exact iff_of_true rfl (by linarith [not_lt.mp h3])

/-- Witness for C5 at a concrete BMI value. -/
theorem claim_C5_witness : bmi_label 20 = "Normal" :=
  (claim_C5_bmi_category 20).2.1.mpr ⟨by norm_num, by norm_num⟩

/-- CLAIM C10: when the stored row is absent, or its height or weight is
NULL or zero (Python falsiness), /bmi replies the completion prompt and the
BMI computation is not reached; and in the computing branch the divisor of
`bmi_value` is nonzero whenever the height is nonzero. -/
theorem claim_C10_bmi_guard :
    (∀ (db : DB) (user_id chat_id : Int),
      (get_profile db user_id = none ∨
        ∃ p, get_profile db user_id = some p ∧
          (p.height_cm = none ∨ p.height_cm = some 0 ∨
           p.weight_kg = none ∨ p.weight_kg = some 0)) →
      bmiBody db user_id chat_id = (db, [msgBmiNeed])) ∧
    (∀ h : Int, h ≠ 0 → ((h : ℚ) / 100) * ((h : ℚ) / 100) ≠ 0) := by
  constructor
  · intro db user_id chat_id hyp
    unfold bmiBody
    rcases hyp with hnone | ⟨p, hp, hfields⟩
    · rw [hnone]
    · rw [hp]
      dsimp only
      rcases hh : p.height_cm with _ | h <;> rcases hw : p.weight_kg with _ | w <;>
        dsimp only
      rcases hfields with h1 | h1 | h1 | h1
      · simp [h1] at hh
      · rw [h1] at hh
        injection hh with he
        rw [if_pos (Or.inl he.symm)]
      · simp [h1] at hw
      · rw [h1] at hw
        injection hw with we
        rw [if_pos (Or.inr we.symm)]
  · intro h hne
    have hq : (h : ℚ) ≠ 0 := Int.cast_ne_zero.mpr hne
    exact mul_ne_zero (div_ne_zero hq (by norm_num)) (div_ne_zero hq (by norm_num))

/-- Witness for C10: a stored zero height yields the prompt, and a concrete
nonzero height yields a nonzero divisor. -/
theorem claim_C10_witness :
    bmiBody dbZeroHeight 1 5 = (dbZeroHeight, [msgBmiNeed]) ∧
    ((5 : ℚ) / 100) * ((5 : ℚ) / 100) ≠ 0 :=
  ⟨claim_C10_bmi_guard.1 dbZeroHeight 1 5
      (Or.inr ⟨rowZeroHeight, rfl, Or.inr (Or.inl rfl)⟩),
    claim_C10_bmi_guard.2 5 (by norm_num)⟩
theorem editParse_ok_fields (restStr : String) (nm sx : Option String) (ag hi : Option Int)
    (wi : Option ℚ) (ac : Option Int)
    (hp : editParse restStr = EditResult.ok nm sx ag hi wi ac) :
    (editFieldToken restStr = "name" ∧ sx = none ∧ ag = none ∧ hi = none ∧ wi = none ∧ ac = none) ∨
    (editFieldToken restStr = "sex" ∧ nm = none ∧ ag = none ∧ hi = none ∧ wi = none ∧ ac = none ∧
      (∀ s, sx = some s → s = "M" ∨ s = "F")) ∨
    (editFieldToken restStr = "age" ∧ nm = none ∧ sx = none ∧ hi = none ∧ wi = none ∧ ac = none) ∨
    (editFieldToken restStr = "height" ∧ nm = none ∧ sx = none ∧ ag = none ∧ wi = none ∧ ac = none) ∨
    (editFieldToken restStr = "weight" ∧ nm = none ∧ sx = none ∧ ag = none ∧ hi = none ∧ ac = none) ∨
    (editFieldToken restStr = "activity" ∧ nm = none ∧ sx = none ∧ ag = none ∧ hi = none ∧ wi = none ∧
      (∀ a, ac = some a → 1 ≤ a ∧ a ≤ 5)) := by
  unfold editParse at hp
  unfold editFieldToken
  rcases hsp : pySplitFirst (Char.ofNat 32) restStr with ⟨f, vo⟩
  rw [hsp] at hp
  cases vo with
  | none =>
    dsimp only at hp
    exact absurd hp (by simp)
  | some v =>
    dsimp only at hp
    split_ifs at hp with h1 h2 h3 h4 h5 h6 h7
    · injection hp with e1 e2 e3 e4 e5 e6
      exact Or.inl ⟨h1, e2.symm, e3.symm, e4.symm, e5.symm, e6.symm⟩
    · injection hp with e1 e2 e3 e4 e5 e6
      refine Or.inr (Or.inl ⟨h2, e1.symm, e3.symm, e4.symm, e5.symm, e6.symm, ?_⟩)
      intro s hs
      rw [← e2] at hs
      injection hs with hs2
      rw [← hs2]
      exact h3
    · cases hci : clean_int (pyStrip v)
      · rw [hci] at hp
        exact absurd hp (by simp)
      · rw [hci] at hp
        dsimp only at hp
        injection hp with e1 e2 e3 e4 e5 e6
        exact Or.inr (Or.inr (Or.inl ⟨h4, e1.symm, e2.symm, e4.symm, e5.symm, e6.symm⟩))
    · cases hci : clean_int (pyStrip v)
      · rw [hci] at hp
        exact absurd hp (by simp)
      · rw [hci] at hp
        dsimp only at hp
        injection hp with e1 e2 e3 e4 e5 e6
        exact Or.inr (Or.inr (Or.inr (Or.inl ⟨h5, e1.symm, e2.symm, e3.symm, e5.symm, e6.symm⟩)))
    · cases hci : clean_float (pyStrip v)
      · rw [hci] at hp
        exact absurd hp (by simp)
      · rw [hci] at hp
        dsimp only at hp
        injection hp with e1 e2 e3 e4 e5 e6
        exact Or.inr (Or.inr (Or.inr (Or.inr (Or.inl ⟨h6, e1.symm, e2.symm, e3.symm, e4.symm, e6.symm⟩))))
    · cases hci : clean_int (pyStrip v)
      · rw [hci] at hp
        exact absurd hp (by simp)
      · rename_i vact
        rw [hci] at hp
        dsimp only at hp
        split_ifs at hp with hrange
        injection hp with e1 e2 e3 e4 e5 e6
        refine Or.inr (Or.inr (Or.inr (Or.inr (Or.inr ⟨h7, e1.symm, e2.symm, e3.symm, e4.symm, e5.symm, ?_⟩))))
        intro a ha
        rw [← e6] at ha
        injection ha with ha2
        rw [← ha2]
        rcases hrange with h | h | h | h | h <;> rw [h] <;> norm_num

/-- CLAIM C1: on an existing row, any /edit request changes at most the
field named by its token (plus `updated_at`); every other profile field,
and every other user's row, keeps its pre-edit value — an absent field in
the payload is left unchanged, never cleared. -/
theorem claim_C1_edit_merge_patch (db : DB) (user_id chat_id : Int) (restStr : String)
    (now : Nat) (row : Profile) (h : db user_id = some row) :
    ∃ row', (editBody db user_id chat_id restStr now).1 user_id = some row' ∧
      (∀ u, u ≠ user_id → (editBody db user_id chat_id restStr now).1 u = db u) ∧
      row'.user_id = row.user_id ∧ row'.chat_id = row.chat_id ∧
      (editFieldToken restStr ≠ "name" → row'.name = row.name) ∧
      (editFieldToken restStr ≠ "sex" → row'.sex = row.sex) ∧
      (editFieldToken restStr ≠ "age" → row'.age = row.age) ∧
      (editFieldToken restStr ≠ "height" → row'.height_cm = row.height_cm) ∧
      (editFieldToken restStr ≠ "weight" → row'.weight_kg = row.weight_kg) ∧
      (editFieldToken restStr ≠ "activity" → row'.activity = row.activity) := by
  unfold editBody
  cases hp : editParse restStr with
  | err =>
    exact ⟨row, h, fun u hu => rfl, rfl, rfl, fun _ => rfl, fun _ => rfl, fun _ => rfl,
      fun _ => rfl, fun _ => rfl, fun _ => rfl⟩
  | silent =>
    exact ⟨row, h, fun u hu => rfl, rfl, rfl, fun _ => rfl, fun _ => rfl, fun _ => rfl,
      fun _ => rfl, fun _ => rfl, fun _ => rfl⟩
  | ok nm sx ag hi wi ac =>
    dsimp only
    refine ⟨_, upsert_profile_self_update db user_id chat_id nm sx ag hi wi ac now row h,
      fun u hu => upsert_profile_other db user_id chat_id nm sx ag hi wi ac now u hu,
      rfl, rfl, ?_, ?_, ?_, ?_, ?_, ?_⟩ <;>
      rcases editParse_ok_fields restStr nm sx ag hi wi ac hp with
        ⟨ht, e2, e3, e4, e5, e6⟩ | ⟨ht, e1, e3, e4, e5, e6, -⟩ |
        ⟨ht, e1, e2, e4, e5, e6⟩ | ⟨ht, e1, e2, e3, e5, e6⟩ |
        ⟨ht, e1, e2, e3, e4, e6⟩ | ⟨ht, e1, e2, e3, e4, e5, -⟩ <;>
      intro hne <;> first
        | exact absurd ht hne
        | simp_all [Option.or]

/-- Witness for C1: editing `age` on a stored row leaves name, sex, height,
weight (including its absence) and activity unchanged. -/
theorem claim_C1_witness :
    ((editBody sampleDB 1 7 ("age 30") 5).1 1).map Profile.name = some (some ("Ace")) ∧
    ((editBody sampleDB 1 7 ("age 30") 5).1 1).map Profile.sex = some (some ("M")) ∧
    ((editBody sampleDB 1 7 ("age 30") 5).1 1).map Profile.height_cm = some (some 175) ∧
    ((editBody sampleDB 1 7 ("age 30") 5).1 1).map Profile.weight_kg = some none ∧
    ((editBody sampleDB 1 7 ("age 30") 5).1 1).map Profile.activity = some (some 3) := by
  obtain ⟨row', hrow, hother, hu, hc, hname, hsex, hage, hheight, hweight, hact⟩ :=
    claim_C1_edit_merge_patch sampleDB 1 7 ("age 30") 5 sampleRow rfl
  rw [hrow]
  simp only [Option.map_some']
  refine ⟨?_, ?_, ?_, ?_, ?_⟩
  · rw [hname (by decide)]
    rfl
  · rw [hsex (by decide)]
    rfl
  · rw [hheight (by decide)]
    rfl
  · rw [hweight (by decide)]
    rfl
  · rw [hact (by decide)]
    rfl
theorem setprofileParse_ok_inv (restStr : String) (n s : String) (age height : Int)
    (w : ℚ) (ac : Int)
    (hp : setprofileParse restStr = SetResult.okRes n s age height w ac) :
    ∃ p0 p1 p2 p3 p4 p5,
      (pySplitAll (Char.ofNat 44) restStr).map pyStrip = [p0, p1, p2, p3, p4, p5] ∧
      n = p0 ∧ s = pyUpper p1 ∧ clean_int p2 = some age ∧ clean_int p3 = some height ∧
      clean_float p4 = some w ∧ clean_int p5 = some ac ∧
      (s = "M" ∨ s = "F") ∧ (ac = 1 ∨ ac = 2 ∨ ac = 3 ∨ ac = 4 ∨ ac = 5) := by
  unfold setprofileParse at hp
  rcases hl : (pySplitAll (Char.ofNat 44) restStr).map pyStrip with
    _ | ⟨p0, _ | ⟨p1, _ | ⟨p2, _ | ⟨p3, _ | ⟨p4, _ | ⟨p5, _ | ⟨p6, rest⟩⟩⟩⟩⟩⟩⟩ <;>
    rw [hl] at hp <;> dsimp only at hp <;>
    try exact absurd hp (by simp)
  cases hc2 : clean_int p2 <;> rw [hc2] at hp <;>
    cases hc3 : clean_int p3 <;> rw [hc3] at hp <;>
    cases hc4 : clean_float p4 <;> rw [hc4] at hp <;>
    cases hc5 : clean_int p5 <;> rw [hc5] at hp <;>
    dsimp only at hp <;>
    try exact absurd hp (by simp)
  split_ifs at hp with hcond
  injection hp with e1 e2 e3 e4 e5 e6
  exact ⟨p0, p1, p2, p3, p4, p5, rfl, e1.symm, e2.symm, e3 ▸ hc2, e4 ▸ hc3, e5 ▸ hc4,
    e6 ▸ hc5, e2 ▸ hcond.1, e6 ▸ hcond.2⟩

/-- CLAIM C2: a valid /setprofile with a 6-tuple (name, sex in M/F, integer
age and height, decimal weight, activity in 1..5) stores exactly those six
values, and a following /profile renders that stored row back. -/
theorem claim_C2_roundtrip (db : DB) (user_id chat_id : Int) (restStr : String) (now : Nat)
    (p0 p1 p2 p3 p4 p5 : String) (age height : Int) (weight : ℚ) (act : Int)
    (hparts : (pySplitAll (Char.ofNat 44) restStr).map pyStrip = [p0, p1, p2, p3, p4, p5])
    (hsex : pyUpper p1 = "M" ∨ pyUpper p1 = "F")
    (hage : clean_int p2 = some age) (hheight : clean_int p3 = some height)
    (hweight : clean_float p4 = some weight) (hact : clean_int p5 = some act)
    (hrange : act = 1 ∨ act = 2 ∨ act = 3 ∨ act = 4 ∨ act = 5) :
    ∃ row, (setprofileBody db user_id chat_id restStr now).1 user_id = some row ∧
      row.name = some p0 ∧ row.sex = some (pyUpper p1) ∧ row.age = some age ∧
      row.height_cm = some height ∧ row.weight_kg = some weight ∧ row.activity = some act ∧
      profileBody (setprofileBody db user_id chat_id restStr now).1 user_id chat_id =
        ((setprofileBody db user_id chat_id restStr now).1, [renderProfile row]) := by
  have hp : setprofileParse restStr = SetResult.okRes p0 (pyUpper p1) age height weight act := by
    unfold setprofileParse
    rw [hparts]
    dsimp only
    rw [hage, hheight, hweight, hact]
    dsimp only
    rw [if_pos ⟨hsex, hrange⟩]
  unfold setprofileBody
  rw [hp]
  dsimp only
  cases hdb : db user_id with
  | none =>
    have hrow := upsert_profile_self_insert db user_id chat_id (some p0) (some (pyUpper p1))
      (some age) (some height) (some weight) (some act) now hdb
    refine ⟨_, hrow, rfl, rfl, rfl, rfl, rfl, rfl, ?_⟩
    unfold profileBody get_profile
    rw [hrow]
  | some oldrow =>
    have hrow := upsert_profile_self_update db user_id chat_id (some p0) (some (pyUpper p1))
      (some age) (some height) (some weight) (some act) now oldrow hdb
    refine ⟨_, hrow, rfl, rfl, rfl, rfl, rfl, rfl, ?_⟩
    unfold profileBody get_profile
    rw [hrow]

/-- Witness for C2 on the concrete tuple of the spec's example. -/
theorem claim_C2_witness :
    ((setprofileBody emptyDB 1 2 ("Ace, M, 22, 175, 76, 3") 0).1 1).map Profile.name
      = some (some ("Ace")) ∧
    ((setprofileBody emptyDB 1 2 ("Ace, M, 22, 175, 76, 3") 0).1 1).map Profile.sex
      = some (some ("M")) ∧
    ((setprofileBody emptyDB 1 2 ("Ace, M, 22, 175, 76, 3") 0).1 1).map Profile.age
      = some (some 22) ∧
    ((setprofileBody emptyDB 1 2 ("Ace, M, 22, 175, 76, 3") 0).1 1).map Profile.height_cm
      = some (some 175) ∧
    ((setprofileBody emptyDB 1 2 ("Ace, M, 22, 175, 76, 3") 0).1 1).map Profile.activity
      = some (some 3) := by
  obtain ⟨w76, hw76⟩ : ∃ q, clean_float ("76") = some q := ⟨_, rfl⟩
  obtain ⟨row, hrow, hn, hs, ha, hh, hw, hac, hprof⟩ :=
    claim_C2_roundtrip emptyDB 1 2 ("Ace, M, 22, 175, 76, 3") 0
      ("Ace") ("M") ("22") ("175") ("76") ("3") 22 175 w76 3
      (by decide) (Or.inl (by decide)) (by decide) (by decide) hw76 (by decide)
      (Or.inr (Or.inr (Or.inl rfl)))
  rw [hrow]
  simp only [Option.map_some']
  refine ⟨?_, ?_, ?_, ?_, ?_⟩
  · rw [hn]
  · rw [hs]
    decide
  · rw [ha]
  · rw [hh]
  · rw [hac]

/-- CLAIM C9: supplying an activity outside 1..5, or a sex that does not
case-fold to M or F, to /setprofile or to /edit is rejected with no store
mutation: the table is exactly as before the command. -/
theorem claim_C9_validation_rejects :
    (∀ (db : DB) (user_id chat_id : Int) (restStr : String) (now : Nat)
      (p0 p1 p2 p3 p4 p5 : String),
      (pySplitAll (Char.ofNat 44) restStr).map pyStrip = [p0, p1, p2, p3, p4, p5] →
      (¬(pyUpper p1 = "M" ∨ pyUpper p1 = "F") ∨
        (∃ a, clean_int p5 = some a ∧ ¬(a = 1 ∨ a = 2 ∨ a = 3 ∨ a = 4 ∨ a = 5))) →
      (setprofileBody db user_id chat_id restStr now).1 = db) ∧
    (∀ (db : DB) (user_id chat_id : Int) (restStr : String) (now : Nat) (f v : String),
      pySplitFirst (Char.ofNat 32) restStr = (f, some v) →
      ((pyStrip (pyLower f) = "sex" ∧ ¬(pyUpper (pyStrip v) = "M" ∨ pyUpper (pyStrip v) = "F")) ∨
       (pyStrip (pyLower f) = "activity" ∧
         ∃ a, clean_int (pyStrip v) = some a ∧ ¬(a = 1 ∨ a = 2 ∨ a = 3 ∨ a = 4 ∨ a = 5))) →
      (editBody db user_id chat_id restStr now).1 = db) := by
  constructor
  · intro db user_id chat_id restStr now p0 p1 p2 p3 p4 p5 hparts hbad
    cases hp : setprofileParse restStr with
    | countErr => unfold setprofileBody; rw [hp]
    | badErr => unfold setprofileBody; rw [hp]
    | okRes n s age height w ac =>
      exfalso
      obtain ⟨q0, q1, q2, q3, q4, q5, hq, -, hs, -, -, -, hc5, hsMF, hacR⟩ :=
        setprofileParse_ok_inv restStr n s age height w ac hp
      rw [hparts] at hq
      injection hq with h0 hq
      injection hq with h1 hq
      injection hq with h2 hq
      injection hq with h3 hq
      injection hq with h4 hq
      injection hq with h5 hq
      rcases hbad with hbs | ⟨a, ha, hnot⟩
      · rw [← h1] at hs
        rw [hs] at hsMF
        exact hbs hsMF
      · rw [← h5] at hc5
        rw [ha] at hc5
        injection hc5 with he
        rw [he] at hnot
        exact hnot hacR
  · intro db user_id chat_id restStr now f v hsplit hbad
    have hp : editParse restStr = EditResult.err := by
      unfold editParse
      rw [hsplit]
      dsimp only
      rcases hbad with ⟨htok, hbs⟩ | ⟨htok, a, ha, hnot⟩
      · rw [htok, if_neg (by decide), if_pos rfl, if_neg hbs]
      · rw [htok, if_neg (by decide), if_neg (by decide), if_neg (by decide),
          if_neg (by decide), if_neg (by decide), if_pos rfl, ha]
        dsimp only
        rw [if_neg hnot]
    unfold editBody
    rw [hp]

/-- Witness for C9: a bad sex in /setprofile and a bad activity in /edit
both leave the table untouched. -/
theorem claim_C9_witness :
    (setprofileBody emptyDB 1 1 ("Ace, X, 22, 175, 76, 3") 0).1 = emptyDB ∧
    (editBody emptyDB 2 2 ("activity 9") 0).1 = emptyDB :=
  ⟨claim_C9_validation_rejects.1 emptyDB 1 1 ("Ace, X, 22, 175, 76, 3") 0
      ("Ace") ("X") ("22") ("175") ("76") ("3") (by decide)
      (Or.inl (by decide)),
    claim_C9_validation_rejects.2 emptyDB 2 2 ("activity 9") 0 ("activity") ("9") rfl
      (Or.inr ⟨by decide, 9, by decide, by decide⟩)⟩

/-- A /setprofile remainder with a field count other than 6 parses to the
count error. -/
theorem setprofileParse_count_of_len (r : String)
    (hlen : ((pySplitAll (Char.ofNat 44) r).map pyStrip).length ≠ 6) :
    setprofileParse r = SetResult.countErr := by
  unfold setprofileParse
  dsimp only
  split
  · rename_i p0 p1 p2 p3 p4 p5 heq
    rw [heq] at hlen
    exact absurd rfl hlen
  · rfl

/-- CLAIM C8 (amended): a /setprofile remainder that does not split into
exactly 6 comma-separated fields replies the item-count message, and a
6-field remainder failing type or range validation replies the
could-not-read message; neither mutates the store, both messages contain
the same format example, but the two user-visible messages differ. -/
theorem claim_C8_setprofile_failures :
    (∀ (db : DB) (user_id chat_id : Int) (restStr : String) (now : Nat),
      ((pySplitAll (Char.ofNat 44) restStr).map pyStrip).length ≠ 6 →
      setprofileBody db user_id chat_id restStr now = (db, [msgSetCount])) ∧
    (∀ (db : DB) (user_id chat_id : Int) (restStr : String) (now : Nat)
      (p0 p1 p2 p3 p4 p5 : String),
      (pySplitAll (Char.ofNat 44) restStr).map pyStrip = [p0, p1, p2, p3, p4, p5] →
      (clean_int p2 = none ∨ clean_int p3 = none ∨ clean_float p4 = none ∨
        clean_int p5 = none ∨ ¬(pyUpper p1 = "M" ∨ pyUpper p1 = "F") ∨
        (∃ a, clean_int p5 = some a ∧ ¬(a = 1 ∨ a = 2 ∨ a = 3 ∨ a = 4 ∨ a = 5))) →
      setprofileBody db user_id chat_id restStr now = (db, [msgSetBad])) ∧
    msgSetCount ≠ msgSetBad := by
  refine ⟨?_, ?_, by decide⟩
  · intro db user_id chat_id restStr now hlen
    unfold setprofileBody
    rw [setprofileParse_count_of_len restStr hlen]
  · intro db user_id chat_id restStr now p0 p1 p2 p3 p4 p5 hparts hbad
    have hp : setprofileParse restStr = SetResult.badErr := by
      unfold setprofileParse
      rw [hparts]
      dsimp only
      cases hc2 : clean_int p2 <;> cases hc3 : clean_int p3 <;>
        cases hc4 : clean_float p4 <;> cases hc5 : clean_int p5 <;>
        dsimp only <;> try rfl
      rcases hbad with h | h | h | h | h | ⟨a, ha, hnot⟩
      · exact absurd hc2 (by rw [h]; simp)
      · exact absurd hc3 (by rw [h]; simp)
      · exact absurd hc4 (by rw [h]; simp)
      · exact absurd hc5 (by rw [h]; simp)
      · rw [if_neg (fun hc => h hc.1)]
      · rw [ha] at hc5
        injection hc5 with he
        rw [if_neg (fun hc => hnot (he ▸ hc.2))]
    unfold setprofileBody
    rw [hp]

/-- Witness for C8: both failure kinds on concrete inputs, with their two
distinct replies and no mutation. -/
theorem claim_C8_witness :
    setprofileBody emptyDB 1 1 ("a, b") 0 = (emptyDB, [msgSetCount]) ∧
    setprofileBody emptyDB 1 1 ("Ace, M, x, 175, 76, 3") 0 = (emptyDB, [msgSetBad]) :=
  ⟨claim_C8_setprofile_failures.1 emptyDB 1 1 ("a, b") 0 (by decide),
    claim_C8_setprofile_failures.2.1 emptyDB 1 1 ("Ace, M, x, 175, 76, 3") 0
      ("Ace") ("M") ("x") ("175") ("76") ("3") (by decide) (Or.inl (by decide))⟩

/-- COUNTEREXAMPLE for C8 as stated: the two failure kinds produce two
different user-visible replies, not the same message. -/
theorem claim_C8_counterexample :
    (telegram emptyDB 1 1 ("/setprofile a, b") 0).2 = [msgSetCount] ∧
    (telegram emptyDB 1 1 ("/setprofile Ace, M, x, 175, 76, 3") 0).2 = [msgSetBad] ∧
    msgSetCount ≠ msgSetBad :=
  ⟨rfl, rfl, by decide⟩

/-- CLAIM C7 (amended): an /edit whose field token is not one of the six
recognized fields performs no store mutation and sends no reply at all (the
handler returns silently rather than replying with a format example). -/
theorem claim_C7_unknown_field_silent (db : DB) (user_id chat_id : Int)
    (restStr : String) (now : Nat) (f v : String)
    (hsplit : pySplitFirst (Char.ofNat 32) restStr = (f, some v))
    (hn : pyStrip (pyLower f) ≠ "name") (hs : pyStrip (pyLower f) ≠ "sex")
    (ha : pyStrip (pyLower f) ≠ "age") (hh : pyStrip (pyLower f) ≠ "height")
    (hw : pyStrip (pyLower f) ≠ "weight") (hc : pyStrip (pyLower f) ≠ "activity") :
    editBody db user_id chat_id restStr now = (db, []) := by
  have hp : editParse restStr = EditResult.silent := by
    unfold editParse
    rw [hsplit]
    dsimp only
    rw [if_neg hn, if_neg hs, if_neg ha, if_neg hh, if_neg hw, if_neg hc]
  unfold editBody
  rw [hp]

/-- Witness for C7 (amended) on a concrete unrecognized field. -/
theorem claim_C7_witness : editBody emptyDB 1 1 ("foo bar") 0 = (emptyDB, []) :=
  claim_C7_unknown_field_silent emptyDB 1 1 ("foo bar") 0 ("foo") ("bar") rfl
    (by decide) (by decide) (by decide) (by decide) (by decide) (by decide)

/-- COUNTEREXAMPLE for C7 as stated: on `/edit foo bar` the dispatcher
sends no reply whatsoever (so in particular no format example), though it
also performs no store mutation. -/
theorem claim_C7_counterexample :
    (telegram emptyDB 1 1 ("/edit foo bar") 0).2 = ([] : List String) ∧
    (telegram emptyDB 1 1 ("/edit foo bar") 0).1 = emptyDB :=
  ⟨rfl, rfl⟩

/-- An upsert whose sex payload is M/F-valid and whose activity payload is
range-valid preserves the store invariant. -/
theorem upsert_StoreInv (db : DB) (user_id chat_id : Int)
    (nm sx : Option String) (ag hi : Option Int) (wi : Option ℚ) (ac : Option Int) (now : Nat)
    (hInv : StoreInv db)
    (hsx : ∀ s, sx = some s → s = "M" ∨ s = "F")
    (hac : ∀ a, ac = some a → 1 ≤ a ∧ a ≤ 5) :
    StoreInv (upsert_profile db user_id chat_id nm sx ag hi wi ac now) := by
  intro u p hp
  unfold upsert_profile at hp
  cases hdb : db user_id <;> rw [hdb] at hp <;> dsimp only at hp
  · by_cases hu : u = user_id
    · rw [if_pos hu] at hp
      injection hp with he
      constructor
      · intro s hs
        rw [← he] at hs
        exact hsx s hs
      · intro a ha
        rw [← he] at ha
        exact hac a ha
    · rw [if_neg hu] at hp
      exact hInv u p hp
  · rename_i row
    by_cases hu : u = user_id
    · rw [if_pos hu] at hp
      injection hp with he
      obtain ⟨hrs, hra⟩ := hInv user_id row hdb
      constructor
      · intro s hs
        rw [← he] at hs
        cases hsx0 : sx
        · rw [hsx0] at hs
          exact hrs s hs
        · rename_i s1
          rw [hsx0] at hs
          injection hs with he2
          rw [← he2]
          exact hsx s1 hsx0
      · intro a ha
        rw [← he] at ha
        cases hac0 : ac
        · rw [hac0] at ha
          exact hra a ha
        · rename_i a1
          rw [hac0] at ha
          injection ha with he2
          rw [← he2]
          exact hac a1 hac0
    · rw [if_neg hu] at hp
      exact hInv u p hp

/-- The /profile branch never mutates the store. -/
theorem profileBody_fst (db : DB) (user_id chat_id : Int) :
    (profileBody db user_id chat_id).1 = db := by
  unfold profileBody
  cases get_profile db user_id <;> rfl

/-- The /bmi branch never mutates the store. -/
theorem bmiBody_fst (db : DB) (user_id chat_id : Int) :
    (bmiBody db user_id chat_id).1 = db := by
  unfold bmiBody
  cases get_profile db user_id
  · rfl
  · rename_i row
    obtain ⟨u1, c1, nm, sx, ag, hi, wi, ac, ts⟩ := row
    dsimp only
    rcases hi with _ | h <;> rcases wi with _ | w <;> dsimp only <;> try rfl
    split <;> rfl

/-- The /cutcal branch never mutates the store. -/
theorem cutcalBody_fst (db : DB) (user_id chat_id : Int) :
    (cutcalBody db user_id chat_id).1 = db := by
  unfold cutcalBody
  cases get_profile db user_id
  · rfl
  · rename_i row
    obtain ⟨u1, c1, nm, sx, ag, hi, wi, ac, ts⟩ := row
    dsimp only
    rcases sx with _ | s <;> rcases ag with _ | a <;> rcases hi with _ | h <;>
      rcases wi with _ | w <;> rcases ac with _ | act <;> dsimp only <;> try rfl
    split <;> rfl

/-- The /setprofile branch preserves the store invariant. -/
theorem setprofileBody_StoreInv (db : DB) (user_id chat_id : Int) (r : String) (now : Nat)
    (hInv : StoreInv db) : StoreInv (setprofileBody db user_id chat_id r now).1 := by
  cases hp : setprofileParse r with
  | countErr =>
    unfold setprofileBody
    rw [hp]
    exact hInv
  | badErr =>
    unfold setprofileBody
    rw [hp]
    exact hInv
  | okRes n s age height w ac =>
    unfold setprofileBody
    rw [hp]
    dsimp only
    obtain ⟨p0, p1, p2, p3, p4, p5, -, -, -, -, -, -, -, hMF, hR⟩ :=
      setprofileParse_ok_inv r n s age height w ac hp
    apply upsert_StoreInv db user_id chat_id _ _ _ _ _ _ now hInv
    · intro s0 hs0
      injection hs0 with he
      rw [← he]
      exact hMF
    · intro a0 ha0
      injection ha0 with he
      rw [← he]
      rcases hR with h | h | h | h | h <;> rw [h] <;> norm_num

/-- The /edit branch preserves the store invariant. -/
theorem editBody_StoreInv (db : DB) (user_id chat_id : Int) (r : String) (now : Nat)
    (hInv : StoreInv db) : StoreInv (editBody db user_id chat_id r now).1 := by
  cases hp : editParse r with
  | err =>
    unfold editBody
    rw [hp]
    exact hInv
  | silent =>
    unfold editBody
    rw [hp]
    exact hInv
  | ok nm sx ag hi wi ac =>
    unfold editBody
    rw [hp]
    dsimp only
    apply upsert_StoreInv db user_id chat_id _ _ _ _ _ _ now hInv
    · intro s0 hs0
      rcases editParse_ok_fields r nm sx ag hi wi ac hp with
        ⟨-, e2, -, -, -, -⟩ | ⟨-, -, -, -, -, -, hS⟩ | ⟨-, -, e2, -, -, -⟩ |
        ⟨-, -, e2, -, -, -⟩ | ⟨-, -, e2, -, -, -⟩ | ⟨-, -, e2, -, -, -, -⟩
      · rw [e2] at hs0
        exact Option.noConfusion hs0
      · exact hS s0 hs0
      · rw [e2] at hs0
        exact Option.noConfusion hs0
      · rw [e2] at hs0
        exact Option.noConfusion hs0
      · rw [e2] at hs0
        exact Option.noConfusion hs0
      · rw [e2] at hs0
        exact Option.noConfusion hs0
    · intro a0 ha0
      rcases editParse_ok_fields r nm sx ag hi wi ac hp with
        ⟨-, -, -, -, -, e6⟩ | ⟨-, -, -, -, -, e6, -⟩ | ⟨-, -, -, -, -, e6⟩ |
        ⟨-, -, -, -, -, e6⟩ | ⟨-, -, -, -, -, e6⟩ | ⟨-, -, -, -, -, -, hA⟩
      · rw [e6] at ha0
        exact Option.noConfusion ha0
      · rw [e6] at ha0
        exact Option.noConfusion ha0
      · rw [e6] at ha0
        exact Option.noConfusion ha0
      · rw [e6] at ha0
        exact Option.noConfusion ha0
      · rw [e6] at ha0
        exact Option.noConfusion ha0
      · exact hA a0 ha0

/-- Every webhook request preserves the store invariant. -/
theorem telegram_StoreInv (db : DB) (user_id chat_id : Int) (rawText : String) (now : Nat)
    (hInv : StoreInv db) : StoreInv (telegram db user_id chat_id rawText now).1 := by
  unfold telegram
  dsimp only
  repeat' split
  all_goals first
    | exact hInv
    | (rw [profileBody_fst]; exact hInv)
    | (rw [bmiBody_fst]; exact hInv)
    | (rw [cutcalBody_fst]; exact hInv)
    | exact setprofileBody_StoreInv db user_id chat_id _ now hInv
    | exact editBody_StoreInv db user_id chat_id _ now hInv

/-- CLAIM C6 (amended): in every table state reachable through webhook
commands, each stored row has `sex ∈ {M, F}` whenever present and
`activity ∈ {1..5}` whenever present (`StoreInv`); the positivity of the
numeric fields claimed by the spec is not enforced by the code. -/
theorem claim_C6_reachable_invariant (db : DB) (h : Reachable db) : StoreInv db := by
  induction h with
  | empty =>
    intro u p hp
    exact Option.noConfusion hp
  | step db0 user_id chat_id rawText now hre ih =>
    exact telegram_StoreInv db0 user_id chat_id rawText now ih

/-- Witness for C6 (amended): the invariant instantiated on the state
reached by one concrete valid /setprofile, at its stored row. -/
theorem claim_C6_witness : (1 : Int) ≤ 3 ∧ (3 : Int) ≤ 5 :=
  (claim_C6_reachable_invariant
      (telegram emptyDB 1 1 ("/setprofile Ace, M, 22, 175, 76, 3") 0).1
      (Reachable.step emptyDB 1 1 ("/setprofile Ace, M, 22, 175, 76, 3") 0 Reachable.empty)
      1
      (Profile.mk 1 1 (some ("Ace")) (some ("M")) (some 22) (some 175)
        (some ((1 : ℚ) * (((76 : ℕ)) : ℚ))) (some 3) 0)
      rfl).2 3 rfl

/-- COUNTEREXAMPLE for C6 as stated: a reachable state stores a negative
age, a negative height and a negative weight — the code never checks the
positivity of the numeric fields (the stored weight value is the parse of
the literal `-70.5`). -/
theorem claim_C6_counterexample :
    Reachable (telegram emptyDB 1 1 ("/setprofile Ace, M, -5, -170, -70.5, 3") 0).1 ∧
    (telegram emptyDB 1 1 ("/setprofile Ace, M, -5, -170, -70.5, 3") 0).1 1 =
      some (Profile.mk 1 1 (some ("Ace")) (some ("M")) (some (-5)) (some (-170))
        (some ((-1 : ℚ) * ((((70 : ℕ)) : ℚ) + (((5 : ℕ)) : ℚ) / (10 : ℚ) ^ (1 : ℕ))))
        (some 3) 0) ∧
    ((-5 : Int) < 0 ∧ (-170 : Int) < 0 ∧
      ((-1 : ℚ) * ((((70 : ℕ)) : ℚ) + (((5 : ℕ)) : ℚ) / (10 : ℚ) ^ (1 : ℕ))) < 0) :=
  ⟨Reachable.step emptyDB 1 1 ("/setprofile Ace, M, -5, -170, -70.5, 3") 0 Reachable.empty,
    rfl, by norm_num, by norm_num, by norm_num⟩
